import Mathlib

/-!
Shallow embedding of `src/MATF.py` (Multi-Agent Task Force: Mission
Sustainability), a Streamlit dashboard that dispatches a user topic to one
of four configured LLM agents or to a collaborative team, with one agent
instead running a local pandas summary over a bundled CSV.

The external agent-orchestration runtime (`agno`), the pandas statistics
calls (`describe`, `mean`) and the Streamlit rendering layer are external
collaborators: they are modelled at their boundary (an oracle describing
what `selected_agent.run` does; opaque string fields for the pandas
outputs), while every line of decision logic in `MATF.py` itself is
translated directly.
-/

namespace MATF

/-! ## Agent registry and team (MATF.py lines 31-91) -/

/-- Model of an `agno` `Agent(...)` construction: the declarative
configuration data passed at the call sites in MATF.py.  The `Groq(id=...)`
model object is represented by its id string; each tool object by the name
of its class. -/
structure AgentSpec where
  name : String
  role : String
  modelId : String
  tools : List String
  instructions : String
  show_tool_calls : Bool
  markdown : Bool
deriving DecidableEq, Repr

/-- Model of an `agno` `Team(...)` construction (MATF.py lines 83-91).
`members` holds leaf `AgentSpec`s only, mirroring the Python call where the
members list contains the four agent objects and no team. -/
structure TeamSpec where
  name : String
  mode : String
  modelId : String
  members : List AgentSpec
  instructions : List String
  show_tool_calls : Bool
  markdown : Bool
deriving DecidableEq, Repr

/-- Translation of `news_analyst = Agent(...)`, MATF.py lines 31-39. -/
def news_analyst : AgentSpec :=
  { name := "📰 News Analyst"
  , role := "Track recent news on sustainability initiatives"
  , modelId := "qwen/qwen3-32b"
  , tools := ["GoogleSearchTools"]
  , instructions := "Find the most relevant city-level green projects from the past year and summarize key findings."
  , show_tool_calls := true
  , markdown := true }

/-- Translation of `data_analyst = Agent(...)`, MATF.py lines 52-60. -/
def data_analyst : AgentSpec :=
  { name := "📊 Data Analyst"
  , role := "Analyze environmental datasets"
  , modelId := "qwen/qwen3-32b"
  , tools := []
  , instructions := "Read the provided air quality dataset and summarize trends."
  , show_tool_calls := false
  , markdown := true }

/-- Translation of `policy_reviewer = Agent(...)`, MATF.py lines 62-70. -/
def policy_reviewer : AgentSpec :=
  { name := "📜 Policy Reviewer"
  , role := "Summarize government sustainability policies"
  , modelId := "qwen/qwen3-32b"
  , tools := ["GoogleSearchTools"]
  , instructions := "Find official city government sources and summarize their recent sustainability policy changes."
  , show_tool_calls := true
  , markdown := true }

/-- Translation of `innovation_scout = Agent(...)`, MATF.py lines 72-80. -/
def innovation_scout : AgentSpec :=
  { name := "💡 Innovations Scout"
  , role := "Discover cutting-edge green tech ideas"
  , modelId := "qwen/qwen3-32b"
  , tools := ["HackerNewsTools", "GoogleSearchTools"]
  , instructions := "Search for innovative urban sustainability technologies and describe them in detail."
  , show_tool_calls := true
  , markdown := true }

/-- Translation of `sustainability_team = Team(...)`, MATF.py lines 83-91. -/
def sustainability_team : TeamSpec :=
  { name := "🌐 Sustainability Task Force"
  , mode := "collaborate"
  , modelId := "qwen/qwen3-32b"
  , members := [news_analyst, data_analyst, policy_reviewer, innovation_scout]
  , instructions := ["Collaborate to produce a comprehensive sustainability proposal for the city."]
  , show_tool_calls := true
  , markdown := true }

/-! ## Selection resolver (MATF.py lines 193-212) -/

/-- Which configured object `selected_agent` ends up referring to. -/
inductive AgentRef where
  | newsAnalyst
  | dataAnalyst
  | policyReviewer
  | innovationScout
  | sustainabilityTeam
deriving DecidableEq, Repr

/-- Result of the selection mapping: `selected_agent`, `banner_class`,
`banner_icon` as assigned by the `if agent_choice == ...` chain. -/
structure SelResolved where
  agent : AgentRef
  banner_class : String
  banner_icon : String
deriving DecidableEq, Repr

/-- The `if agent_choice == ... / elif ... / else` chain of MATF.py
lines 193-212, translated branch for branch. -/
def resolveChoice (agent_choice : String) : SelResolved :=
  if agent_choice = "📰 News Analyst" then
    ⟨.newsAnalyst, "news-analyst-banner", "📰"⟩
  else if agent_choice = "📊 Data Analyst" then
    ⟨.dataAnalyst, "data-analyst-banner", "📊"⟩
  else if agent_choice = "📜 Policy Reviewer" then
    ⟨.policyReviewer, "policy-reviewer-banner", "📜"⟩
  else if agent_choice = "💡 Innovations Scout" then
    ⟨.innovationScout, "innovation-scout-banner", "💡"⟩
  else
    ⟨.sustainabilityTeam, "sustainability-team-banner", "🌐"⟩

/-- The five labels offered by the sidebar radio (MATF.py lines 175-178). -/
def selectionLabels : List String :=
  ["📰 News Analyst", "📊 Data Analyst", "📜 Policy Reviewer",
   "💡 Innovations Scout", "🌐 Full Task Force"]

/-! ## Dataset bootstrap (MATF.py lines 21-28) -/

/-- The CSV text that `df_mock.to_csv(data_path, index=False)` writes for
the mock dataframe of MATF.py lines 23-27 (pandas writes a header row then
one comma-separated line per row, each newline-terminated). -/
def mockCsv : String :=
  "Year,PM2.5,CO2\n2021,55,400\n2022,48,395\n2023,42,390\n"

/-- State of the single file at `data_path`: `none` when it does not
exist, `some contents` when it does. -/
def FileState := Option String

/-- The bootstrap block of MATF.py lines 22-28: if the file does not
exist, write `mockCsv`; otherwise do nothing.  Returns the new file state
and whether a write was performed. -/
def ensureSampleDataset : Option String → Option String × Bool
  | some c => (some c, false)
  | none => (some mockCsv, true)

/-- Split a character list at every occurrence of `sep`. -/
def splitOnChar (sep : Char) : List Char → List (List Char)
  | [] => [[]]
  | c :: cs =>
    if c = sep then
      [] :: splitOnChar sep cs
    else
      match splitOnChar sep cs with
      | r :: rs => (c :: r) :: rs
      | [] => [[c]]

/-- A minimal CSV reader used only to state properties of `mockCsv`:
split into non-empty lines, then split each line on commas. -/
def parseCsv (s : String) : List (List String) :=
  (((splitOnChar '\n' s.data).filter (fun l => l ≠ [])).map
    (splitOnChar ',')).map (fun r => r.map String.mk)

/-- Read a decimal numeral from a character list, accumulator style;
`none` on any non-digit. -/
def parseNatAux : List Char → Nat → Option Nat
  | [], acc => some acc
  | c :: cs, acc =>
    if c.isDigit then parseNatAux cs (acc * 10 + (c.toNat - 48)) else none

/-- Read a non-empty decimal numeral from a string. -/
def parseNatStr (s : String) : Option Nat :=
  match s.data with
  | [] => none
  | cs => parseNatAux cs 0

/-- Whether each element of the list is one more than the element before it. -/
def consecutiveYears : List Nat → Bool
  | [] => true
  | [_] => true
  | a :: b :: rest => (b = a + 1) && consecutiveYears (b :: rest)

/-- The Year column of a parsed CSV table: first field of every data row,
read as a number. -/
def yearColumn (t : List (List String)) : List Nat :=
  t.tail.filterMap (fun r => parseNatStr r.headI)

/-! ## Local analysis path (MATF.py lines 41-50) -/

/-- Model of the pandas dataframe loaded by `pd.read_csv(data_path)` at
the boundary used by `analyze_dataset`: its column list, the string
produced by the external library call `df.describe(include=all).to_string()`,
and, for each column name, the string that `f-string` formatting
of `df[col].mean()` with `.2f` produces.  `describe` and `mean` are pandas
library calls, external collaborators per the spec, so they are carried as
opaque data here. -/
structure DataFrame where
  columns : List String
  describeStr : String
  meanStr : String → String

/-- Translation of `analyze_dataset()`, MATF.py lines 41-50, with the loaded dataframe
passed explicitly. -/
def analyze_dataset (df : DataFrame) : String :=
  let summary := df.describeStr
  let trends : List String :=
    (if "PM2.5" ∈ df.columns then
      ["🌫️ **Average PM2.5:** " ++ df.meanStr "PM2.5" ++ " μg/m³"]
     else []) ++
    (if "CO2" ∈ df.columns then
      ["🌍 **Average CO2:** " ++ df.meanStr "CO2" ++ " ppm"]
     else [])
  let trends_text := String.intercalate "\n" trends
  "📊 **Dataset Summary:**\n```\n" ++ summary ++
    "\n```\n\n**Environmental Trends:**\n" ++ trends_text

/-- The trend-line list built inside `analyze_dataset` (the two `if ... in
df.columns: trends.append(...)` statements), named so theorems can speak
about which lines the report contains. -/
def trendLines (df : DataFrame) : List String :=
  (if "PM2.5" ∈ df.columns then
    ["🌫️ **Average PM2.5:** " ++ df.meanStr "PM2.5" ++ " μg/m³"]
   else []) ++
  (if "CO2" ∈ df.columns then
    ["🌍 **Average CO2:** " ++ df.meanStr "CO2" ++ " ppm"]
   else [])

/-- The PM2.5 trend line as appended at MATF.py line 46. -/
def pmLine (df : DataFrame) : String :=
  "🌫️ **Average PM2.5:** " ++ df.meanStr "PM2.5" ++ " μg/m³"

/-- The CO2 trend line as appended at MATF.py line 48. -/
def co2Line (df : DataFrame) : String :=
  "🌍 **Average CO2:** " ++ df.meanStr "CO2" ++ " ppm"

/-! ## Dispatch executor (MATF.py lines 221-247) -/

/-- Oracle describing what the external call `selected_agent.run(topic)`
does on this dispatch: either it raises an exception whose `str()` is
`msg`, or it returns a value.  A returned Python value is described by its
truthiness (`None` is falsy) and by whether it has a `content` attribute
and, if so, the string that attribute renders as.  `returns truthy none`
is a value with no `content` attribute. -/
inductive RunBehavior where
  | raises (msg : String)
  | returns (truthy : Bool) (content : Option String)
deriving DecidableEq, Repr

/-- Observable outcome of one press of the Launch Mission button:
the rendered report text, the `st.warning` for no content, the `st.error`
for an exception, or the `st.warning` for a blank topic. -/
inductive MissionResult where
  | text (s : String)
  | empty
  | error (msg : String)
  | inputWarning
deriving DecidableEq, Repr

/-- The Python `str.strip()` call on the topic string: drop whitespace from both
ends (whitespace per `Char.isWhitespace`, which covers the ASCII whitespace
Python strips plus nothing the claims depend on). -/
def pyStrip (s : String) : String :=
  ⟨((s.data.dropWhile Char.isWhitespace).reverse.dropWhile
      Char.isWhitespace).reverse⟩

/-- The Launch Mission handler of MATF.py lines 221-247, translated branch
for branch.  `run` is the oracle for the single external
`selected_agent.run(topic)` call; the second component counts how many
times that external call is performed (0 or 1).  The `try/except` of lines
226-245 appears as the match on `RunBehavior.raises`: a raising call
produces `MissionResult.error` instead of propagating, which is exactly
what makes this a total function. -/
def launchMission (agent_choice topic : String) (df : DataFrame)
    (run : RunBehavior) : MissionResult × Nat :=
  if pyStrip topic ≠ "" then
    if agent_choice = "📊 Data Analyst" then
      (.text (analyze_dataset df), 0)
    else
      match run with
      | .raises msg => (.error ("💥 Mission Error: " ++ msg), 1)
      | .returns truthy content =>
        if truthy then
          match content with
          | some c => (.text c, 1)
          | none => (.empty, 1)
        else
          (.empty, 1)
  else
    (.inputWarning, 0)

/-! ## Environment load (MATF.py lines 17-18) -/

/-- Line 18 of MATF.py: `os.environ[GROQ_API_KEY] = os.getenv(GROQ_API_KEY)`.
The argument is what `os.getenv` returns for the variable.  When the
variable is present the value is stored back unexamined; when it is absent
`os.getenv` yields `None` and the `os.environ` item assignment raises
`TypeError: str expected, not NoneType` — a Python type error, not a
configuration message.  There is no branch on the value anywhere in the
source line. -/
def startupCredentialLoad : Option String → Except String String
  | some v => .ok v
  | none => .error "str expected, not NoneType"

/-- Substring test on character lists, used to state what an error message
does or does not mention. -/
def listHasPrefix : List Char → List Char → Bool
  | _, [] => true
  | [], _ :: _ => false
  | c :: cs, d :: ds => c = d && listHasPrefix cs ds

/-- Whether `pat` occurs as a contiguous sublist of `s`. -/
def listHasSub : List Char → List Char → Bool
  | [], pat => pat.isEmpty
  | c :: cs, pat => listHasPrefix (c :: cs) pat || listHasSub cs pat

/-- Whether the string `pat` occurs in `s`. -/
def strContains (s pat : String) : Bool :=
  listHasSub s.data pat.data

/-- A concrete dataframe with both optional columns, used to instantiate
the analysis and dispatch theorems. -/
def dfBoth : DataFrame :=
  { columns := ["Year", "PM2.5", "CO2"]
  , describeStr := "STATS TABLE"
  , meanStr := fun _ => "47.00" }

/-! ## Theorems -/

/-- C1: with a non-blank topic and a non-DataAnalyst selection, a raising
external run call yields the error outcome whose message is the fixed
prefix followed by the exception description (hence contains it), and the
dispatch still returns a `MissionResult` — the exception does not
propagate past the handler. -/
theorem C1_run_exception_becomes_error (agent_choice topic msg : String)
    (df : DataFrame)
    (hTopic : pyStrip topic ≠ "")
    (hSel : agent_choice ≠ "📊 Data Analyst") :
    launchMission agent_choice topic df (.raises msg)
      = (.error ("💥 Mission Error: " ++ msg), 1)
    ∧ ∃ p, "💥 Mission Error: " ++ msg = p ++ msg := by
  refine ⟨?_, "💥 Mission Error: ", rfl⟩
  simp [launchMission, hTopic, hSel]

/-- Witness for C1 at the example from the spec: a fake run contract raising
"boom" on the News Analyst selection. -/
theorem C1_witness :
    launchMission "📰 News Analyst" "Karachi" dfBoth (.raises "boom")
      = (.error ("💥 Mission Error: " ++ "boom"), 1)
    ∧ ∃ p, "💥 Mission Error: " ++ "boom" = p ++ "boom" :=
  C1_run_exception_becomes_error "📰 News Analyst" "Karachi" "boom" dfBoth
    (by decide) (by decide)

/-- C2: with a non-blank topic and a non-DataAnalyst selection, a
successful run call returning a truthy object with no `content` attribute
yields the empty outcome, never the text outcome. -/
theorem C2_no_content_yields_empty (agent_choice topic : String)
    (df : DataFrame)
    (hTopic : pyStrip topic ≠ "")
    (hSel : agent_choice ≠ "📊 Data Analyst") :
    launchMission agent_choice topic df (.returns true none) = (.empty, 1) := by
  simp [launchMission, hTopic, hSel]

/-- Witness for C2 on the Policy Reviewer selection. -/
theorem C2_witness :
    launchMission "📜 Policy Reviewer" "solar grids" dfBoth
      (.returns true none) = (.empty, 1) :=
  C2_no_content_yields_empty "📜 Policy Reviewer" "solar grids" dfBoth
    (by decide) (by decide)

/-- C3: a topic that is empty after stripping whitespace short-circuits to
the input-validation warning for every selection and every run behavior,
and performs zero external run calls. -/
theorem C3_blank_topic_no_dispatch (agent_choice topic : String)
    (df : DataFrame) (run : RunBehavior)
    (hTopic : pyStrip topic = "") :
    launchMission agent_choice topic df run = (.inputWarning, 0) := by
  simp [launchMission, hTopic]

/-- Witness for C3 on a whitespace-only topic. -/
theorem C3_witness :
    launchMission "🌐 Full Task Force" "   " dfBoth
      (.returns true (some "X")) = (.inputWarning, 0) :=
  C3_blank_topic_no_dispatch "🌐 Full Task Force" "   " dfBoth
    (.returns true (some "X")) (by decide)

/-- C6: with a non-blank topic and a non-DataAnalyst selection, a run call
returning an object whose `content` attribute is the non-empty string `c`
yields the text outcome with exactly that content. -/
theorem C6_content_rendered_verbatim (agent_choice topic c : String)
    (df : DataFrame)
    (hTopic : pyStrip topic ≠ "")
    (hSel : agent_choice ≠ "📊 Data Analyst")
    (_hc : c ≠ "") :
    launchMission agent_choice topic df (.returns true (some c))
      = (.text c, 1) := by
  simp [launchMission, hTopic, hSel]

/-- Witness for C6 at the example content "X" from the spec. -/
theorem C6_witness :
    launchMission "💡 Innovations Scout" "vertical farms" dfBoth
      (.returns true (some "X")) = (.text "X", 1) :=
  C6_content_rendered_verbatim "💡 Innovations Scout" "vertical farms" "X"
    dfBoth (by decide) (by decide) (by decide)

/-- C10: with a non-blank topic and a non-DataAnalyst selection, a run
call returning a falsy value (such as `None`) yields the empty outcome for
every possible `content` description — the handler never inspects the
content of a falsy result. -/
theorem C10_falsy_result_yields_empty (agent_choice topic : String)
    (df : DataFrame) (content : Option String)
    (hTopic : pyStrip topic ≠ "")
    (hSel : agent_choice ≠ "📊 Data Analyst") :
    launchMission agent_choice topic df (.returns false content)
      = (.empty, 1) := by
  simp [launchMission, hTopic, hSel]

/-- Witness for C10: `None` returned on the News Analyst selection. -/
theorem C10_witness :
    launchMission "📰 News Analyst" "clean transit" dfBoth
      (.returns false none) = (.empty, 1) :=
  C10_falsy_result_yields_empty "📰 News Analyst" "clean transit" dfBoth
    none (by decide) (by decide)

/-- C4: the selection mapping is a total function (it is a Lean function);
every one of the five offered labels resolves to a non-empty banner class
and a non-empty banner icon, and every input not equal to the first four
labels — the fifth label included — resolves to the Full Task Force
configuration with its banner metadata. -/
theorem C4_selection_total_with_default (s : String)
    (h1 : s ≠ "📰 News Analyst") (h2 : s ≠ "📊 Data Analyst")
    (h3 : s ≠ "📜 Policy Reviewer") (h4 : s ≠ "💡 Innovations Scout") :
    (∀ l ∈ selectionLabels,
      (resolveChoice l).banner_class ≠ "" ∧ (resolveChoice l).banner_icon ≠ "")
    ∧ resolveChoice s
        = ⟨.sustainabilityTeam, "sustainability-team-banner", "🌐"⟩ := by
  constructor
  · decide
  · simp [resolveChoice, h1, h2, h3, h4]

/-- Witness for C4 at the fifth label, which matches none of the first
four and falls to the default branch. -/
theorem C4_witness :
    (∀ l ∈ selectionLabels,
      (resolveChoice l).banner_class ≠ "" ∧ (resolveChoice l).banner_icon ≠ "")
    ∧ resolveChoice "🌐 Full Task Force"
        = ⟨.sustainabilityTeam, "sustainability-team-banner", "🌐"⟩ :=
  C4_selection_total_with_default "🌐 Full Task Force"
    (by decide) (by decide) (by decide) (by decide)

/-- C5: for every loadable dataframe the analysis report is the fixed
template containing the `describe` table verbatim followed by the joined
trend lines; there are at most two trend lines, and in each of the four
column-presence cases the trend-line list is exactly the lines whose
source column exists — the PM2.5 line if and only if the PM2.5 column
exists and the CO2 line if and only if the CO2 column exists.  The
function is total: a missing optional column never fails. -/
theorem C5_analysis_report_shape (df : DataFrame) :
    analyze_dataset df =
      "📊 **Dataset Summary:**\n```\n" ++ df.describeStr ++
        "\n```\n\n**Environmental Trends:**\n" ++
        String.intercalate "\n" (trendLines df)
    ∧ (trendLines df).length ≤ 2
    ∧ ("PM2.5" ∈ df.columns → "CO2" ∈ df.columns →
        trendLines df = [pmLine df, co2Line df])
    ∧ ("PM2.5" ∈ df.columns → "CO2" ∉ df.columns →
        trendLines df = [pmLine df])
    ∧ ("PM2.5" ∉ df.columns → "CO2" ∈ df.columns →
        trendLines df = [co2Line df])
    ∧ ("PM2.5" ∉ df.columns → "CO2" ∉ df.columns →
        trendLines df = []) := by
  refine ⟨rfl, ?_, ?_, ?_, ?_, ?_⟩
  · by_cases h1 : "PM2.5" ∈ df.columns <;>
      by_cases h2 : "CO2" ∈ df.columns <;>
      simp [trendLines, h1, h2]
  · intro h1 h2
    simp [trendLines, h1, h2, pmLine, co2Line]
  · intro h1 h2
    simp [trendLines, h1, h2, pmLine]
  · intro h1 h2
    simp [trendLines, h1, h2, co2Line]
  · intro h1 h2
    simp [trendLines, h1, h2]

/-- Witness for C5 on a dataframe carrying both optional columns: both
trend lines appear, in order. -/
theorem C5_witness :
    trendLines dfBoth = [pmLine dfBoth, co2Line dfBoth]
    ∧ (trendLines dfBoth).length ≤ 2 :=
  ⟨(C5_analysis_report_shape dfBoth).2.2.1 (by decide) (by decide),
   (C5_analysis_report_shape dfBoth).2.1⟩

/-- C7: the bootstrap is idempotent — the second of two consecutive runs
never writes and leaves the file state unchanged, and from an absent file
the first run performs the single write of `mockCsv` — and `mockCsv`
parses into a header row naming the Year, particulate and CO2 columns
followed by exactly 3 data rows whose Year values are consecutive. -/
theorem C7_bootstrap_idempotent (s : Option String) :
    (ensureSampleDataset (ensureSampleDataset s).1).2 = false
    ∧ (ensureSampleDataset (ensureSampleDataset s).1).1
        = (ensureSampleDataset s).1
    ∧ (s = none → ensureSampleDataset s = (some mockCsv, true))
    ∧ parseCsv mockCsv =
        [["Year", "PM2.5", "CO2"], ["2021", "55", "400"],
         ["2022", "48", "395"], ["2023", "42", "390"]]
    ∧ 3 ≤ (parseCsv mockCsv).tail.length
    ∧ yearColumn (parseCsv mockCsv) = [2021, 2022, 2023]
    ∧ consecutiveYears (yearColumn (parseCsv mockCsv)) = true := by
  refine ⟨?_, ?_, ?_, by decide, by decide, by decide, by decide⟩
  · cases s <;> rfl
  · cases s <;> rfl
  · intro h
    subst h
    rfl

/-- Witness for C7 starting from an absent file. -/
theorem C7_witness :
    ensureSampleDataset none = (some mockCsv, true)
    ∧ (ensureSampleDataset (ensureSampleDataset none).1).2 = false :=
  ⟨(C7_bootstrap_idempotent none).2.2.1 rfl, (C7_bootstrap_idempotent none).1⟩

/-- C8: the team configuration references exactly the four leaf agent
specs in the fixed source order (so its member list is non-empty and every
member is a leaf `AgentSpec` — the member type admits no nested team),
its mode tag is "collaborate", and it carries the collaboration
instruction.  As a top-level `def` it is constructed once and is
immutable. -/
theorem C8_team_invariant :
    sustainability_team.members =
      [news_analyst, data_analyst, policy_reviewer, innovation_scout]
    ∧ sustainability_team.members ≠ []
    ∧ sustainability_team.mode = "collaborate"
    ∧ sustainability_team.instructions =
        ["Collaborate to produce a comprehensive sustainability proposal for the city."] :=
  ⟨rfl, by simp [sustainability_team], rfl, rfl⟩

/-- C9: the startup credential load performs no validation — any present
value, the empty string included, is stored back unexamined — and when the
variable is absent the resulting failure message names neither the
variable nor configuration: it is the raw Python type error, not a clear
configuration-error message. -/
theorem C9_no_credential_check (v : String) :
    startupCredentialLoad (some v) = .ok v
    ∧ startupCredentialLoad (some "") = .ok ""
    ∧ (∀ m, startupCredentialLoad none = .error m →
        strContains m "GROQ_API_KEY" = false
        ∧ strContains m "configuration" = false) := by
  refine ⟨rfl, rfl, ?_⟩
  intro m hm
  simp only [startupCredentialLoad, Except.error.injEq] at hm
  subst hm
  constructor <;> decide

/-- Witness for C9 at the message the absent-variable path produces. -/
theorem C9_witness :
    startupCredentialLoad (some "gsk-key") = .ok "gsk-key"
    ∧ strContains "str expected, not NoneType" "GROQ_API_KEY" = false :=
  ⟨(C9_no_credential_check "gsk-key").1,
   ((C9_no_credential_check "gsk-key").2.2 "str expected, not NoneType"
      rfl).1⟩

end MATF
